import Mathlib

/-!
Verification of the quote-analysis backend.

The embedding follows the source: `QuotesService.applyBusinessRules` and the
batch handler `QuotesService.analyzeQuotes` from the quotes service,
`AIServiceClient.handleError`, `AIServiceClient.checkHealth` and the
response-deserialization step of `AIServiceClient.analyzeQuotes` from the AI
service client. Numbers are modelled as `Int` (all arithmetic in the source is
integral); JavaScript `null` for the price becomes `Option.none`; thrown
exceptions become explicit error values; the outcome of an HTTP call becomes an
explicit parameter.
-/

/-- Input DTO: one vendor quote submission. -/
structure CreateQuoteDto where
  vendorName : String
  content : String
  category : String
deriving Repr, DecidableEq

/-- One analysed quote, camelCase internal shape. `price` is `none` when the
upstream could not extract a price (JavaScript `null`). -/
structure QuoteAnalysisDto where
  vendorName : String
  price : Option Int
  currency : String
  strengths : List String
  weaknesses : List String
  risks : List String
  score : Int
  scoreReasoning : String
deriving Repr, DecidableEq

/-- Batch result: analyses, overall recommendation, completion timestamp. -/
structure AnalysisResultDto where
  analyses : List QuoteAnalysisDto
  recommendation : String
  analyzedAt : Nat
deriving Repr, DecidableEq

/-- Embedding of `QuotesService.applyBusinessRules`: three sequential penalty
rules mutating `adjustedScore` and accumulating `penalties`, then the floor
clamp `Math.max(0, adjustedScore)`, then the reasoning suffix appended only
when at least one penalty fired. -/
def QuotesService.applyBusinessRules (analysis : QuoteAnalysisDto) : QuoteAnalysisDto :=
  let adjustedScore0 : Int := analysis.score
  let penalties0 : List String := []
  let adjustedScore1 :=
    if analysis.price = none then adjustedScore0 - 10 else adjustedScore0
  let penalties1 :=
    if analysis.price = none then penalties0 ++ ["Prix non spécifié (-10 pts)"] else penalties0
  let adjustedScore2 :=
    if analysis.strengths.length < 2 then adjustedScore1 - 5 else adjustedScore1
  let penalties2 :=
    if analysis.strengths.length < 2 then
      penalties1 ++ ["Peu d\x27avantages identifiés (-5 pts)"] else penalties1
  let adjustedScore3 :=
    if analysis.risks.length > 3 then adjustedScore2 - 10 else adjustedScore2
  let penalties3 :=
    if analysis.risks.length > 3 then
      penalties2 ++ ["Nombreux risques détectés (-10 pts)"] else penalties2
  let adjustedScore4 := max 0 adjustedScore3
  let updatedReasoning :=
    if penalties3.length > 0 then
      analysis.scoreReasoning ++ " | Ajustements métier : " ++ String.intercalate ", " penalties3
    else analysis.scoreReasoning
  { analysis with score := adjustedScore4, scoreReasoning := updatedReasoning }

/-- Total penalty the three rules subtract for a given analysis. -/
def penaltyTotal (a : QuoteAnalysisDto) : Int :=
  (if a.price = none then 10 else 0) +
  (if a.strengths.length < 2 then 5 else 0) +
  (if a.risks.length > 3 then 10 else 0)

/-- Notes of the fired penalty rules, in rule order 1, 2, 3. -/
def firedNotes (a : QuoteAnalysisDto) : List String :=
  (if a.price = none then ["Prix non spécifié (-10 pts)"] else []) ++
  (if a.strengths.length < 2 then ["Peu d\x27avantages identifiés (-5 pts)"] else []) ++
  (if a.risks.length > 3 then ["Nombreux risques détectés (-10 pts)"] else [])

lemma applyBusinessRules_score (a : QuoteAnalysisDto) :
    (QuotesService.applyBusinessRules a).score = max 0 (a.score - penaltyTotal a) := by
  unfold QuotesService.applyBusinessRules penaltyTotal
  by_cases h1 : a.price = none <;>
    by_cases h2 : a.strengths.length < 2 <;>
      by_cases h3 : a.risks.length > 3 <;>
        simp [h1, h2, h3] <;> ring_nf

lemma applyBusinessRules_reasoning_fired (a : QuoteAnalysisDto)
    (h : 0 < penaltyTotal a) :
    (QuotesService.applyBusinessRules a).scoreReasoning =
      a.scoreReasoning ++ " | Ajustements métier : " ++
        String.intercalate ", " (firedNotes a) := by
  unfold penaltyTotal at h
  unfold QuotesService.applyBusinessRules firedNotes
  by_cases h1 : a.price = none <;>
    by_cases h2 : a.strengths.length < 2 <;>
      by_cases h3 : a.risks.length > 3 <;>
        simp [h1, h2, h3] at h ⊢

lemma applyBusinessRules_reasoning_clean (a : QuoteAnalysisDto)
    (h : penaltyTotal a = 0) :
    (QuotesService.applyBusinessRules a).scoreReasoning = a.scoreReasoning := by
  unfold penaltyTotal at h
  unfold QuotesService.applyBusinessRules
  by_cases h1 : a.price = none <;>
    by_cases h2 : a.strengths.length < 2 <;>
      by_cases h3 : a.risks.length > 3 <;>
        simp [h1, h2, h3] at h ⊢

lemma applyBusinessRules_frame (a : QuoteAnalysisDto) :
    (QuotesService.applyBusinessRules a).vendorName = a.vendorName ∧
    (QuotesService.applyBusinessRules a).price = a.price ∧
    (QuotesService.applyBusinessRules a).currency = a.currency ∧
    (QuotesService.applyBusinessRules a).strengths = a.strengths ∧
    (QuotesService.applyBusinessRules a).weaknesses = a.weaknesses ∧
    (QuotesService.applyBusinessRules a).risks = a.risks :=
  ⟨rfl, rfl, rfl, rfl, rfl, rfl⟩

/-- Concrete analysis from the spec example: missing price, one strength,
four risks, raw score 80. -/
def c1Example : QuoteAnalysisDto :=
  { vendorName := "V", price := none, currency := "EUR", strengths := ["a"],
    weaknesses := [], risks := ["x", "y", "z", "w"], score := 80,
    scoreReasoning := "base" }

/-- C1: for every analysis, the adjusted score is max(0, score - p) where p
sums the three unconditional penalties (10 for a missing price, 5 for fewer
than 2 strengths, 10 for more than 3 risks); whenever p is positive the
reasoning gains one separator segment followed by the fired notes joined by a
delimiter in rule order 1, 2, 3; and the spec example (price absent, one
strength, four risks, raw score 80) adjusts to 55 with all three notes
appended in order. -/
theorem C1_adjust_penalties (a : QuoteAnalysisDto) :
    (QuotesService.applyBusinessRules a).score = max 0 (a.score - penaltyTotal a) ∧
    (0 < penaltyTotal a →
      (QuotesService.applyBusinessRules a).scoreReasoning =
        a.scoreReasoning ++ " | Ajustements métier : " ++
          String.intercalate ", " (firedNotes a)) ∧
    (QuotesService.applyBusinessRules c1Example).score = 55 ∧
    (QuotesService.applyBusinessRules c1Example).scoreReasoning =
      "base | Ajustements métier : Prix non spécifié (-10 pts), " ++
        "Peu d\x27avantages identifiés (-5 pts), Nombreux risques détectés (-10 pts)" :=
  ⟨applyBusinessRules_score a, applyBusinessRules_reasoning_fired a,
    by decide, by decide⟩

/-- C1 witness: the general part of C1 evaluated at the concrete spec
example, with the positivity hypothesis discharged there. -/
theorem C1_adjust_penalties_witness :
    (QuotesService.applyBusinessRules c1Example).score =
        max 0 (c1Example.score - penaltyTotal c1Example) ∧
    (QuotesService.applyBusinessRules c1Example).scoreReasoning =
      c1Example.scoreReasoning ++ " | Ajustements métier : " ++
        String.intercalate ", " (firedNotes c1Example) :=
  ⟨(C1_adjust_penalties c1Example).1,
    (C1_adjust_penalties c1Example).2.1 (by decide)⟩

/-- Counterexample input for C2: price present, two strengths, no risks, but
a negative raw score. -/
def c2Counter : QuoteAnalysisDto :=
  { vendorName := "V", price := some 100, currency := "EUR",
    strengths := ["a", "b"], weaknesses := [], risks := [], score := -5,
    scoreReasoning := "r" }

/-- C2 counterexample: an analysis satisfying all of the claimed
preconditions (price present, at least 2 strengths, at most 3 risks) whose
score is nevertheless changed by adjust, because the floor clamp fires on the
negative raw score. -/
theorem C2_counterexample :
    c2Counter.price ≠ none ∧ 2 ≤ c2Counter.strengths.length ∧
    c2Counter.risks.length ≤ 3 ∧
    (QuotesService.applyBusinessRules c2Counter).score ≠ c2Counter.score := by
  refine ⟨by decide, by decide, by decide, ?_⟩
  decide

/-- C2 amended: for analyses with price present, at least 2 strengths and at
most 3 risks, adjust leaves the reasoning unchanged, and leaves the score
unchanged provided the raw score is nonnegative (a negative raw score is
clamped to 0 by the unconditional floor). -/
theorem C2_adjust_identity_on_clean (a : QuoteAnalysisDto)
    (h1 : a.price ≠ none) (h2 : 2 ≤ a.strengths.length)
    (h3 : a.risks.length ≤ 3) :
    (QuotesService.applyBusinessRules a).scoreReasoning = a.scoreReasoning ∧
    (0 ≤ a.score → (QuotesService.applyBusinessRules a).score = a.score) := by
  have hp : penaltyTotal a = 0 := by
    unfold penaltyTotal
    simp [h1]
    omega
  refine ⟨applyBusinessRules_reasoning_clean a hp, fun hs => ?_⟩
  rw [applyBusinessRules_score a, hp]
  omega

/-- C2 witness: the amended theorem applied to a concrete clean analysis. -/
theorem C2_adjust_identity_on_clean_witness :
    (QuotesService.applyBusinessRules
      { vendorName := "W", price := some 10, currency := "EUR",
        strengths := ["a", "b", "c"], weaknesses := [], risks := [],
        score := 5, scoreReasoning := "ok" }).scoreReasoning = "ok" ∧
    (QuotesService.applyBusinessRules
      { vendorName := "W", price := some 10, currency := "EUR",
        strengths := ["a", "b", "c"], weaknesses := [], risks := [],
        score := 5, scoreReasoning := "ok" }).score = 5 := by
  have h := C2_adjust_identity_on_clean
    { vendorName := "W", price := some 10, currency := "EUR",
      strengths := ["a", "b", "c"], weaknesses := [], risks := [],
      score := 5, scoreReasoning := "ok" }
    (by decide) (by decide) (by decide)
  exact ⟨h.1, h.2 (by decide)⟩

/-- Counterexample input for C6: a clean analysis whose raw score exceeds
100; no penalty fires and no ceiling clamp exists. -/
def c6Counter : QuoteAnalysisDto :=
  { vendorName := "V", price := some 100, currency := "EUR",
    strengths := ["a", "b"], weaknesses := [], risks := [], score := 200,
    scoreReasoning := "r" }

/-- C6 counterexample: with an unconstrained raw score the adjusted score can
exceed 100, so the claimed upper bound fails. -/
theorem C6_counterexample :
    100 < (QuotesService.applyBusinessRules c6Counter).score := by decide

/-- C6 amended: the adjusted score is always at least 0, and it is at most
100 provided the upstream raw score is at most 100 (the code adds no ceiling
clamp, it only trusts the upstream bound). -/
theorem C6_score_bounds (a : QuoteAnalysisDto) :
    0 ≤ (QuotesService.applyBusinessRules a).score ∧
    (a.score ≤ 100 → (QuotesService.applyBusinessRules a).score ≤ 100) := by
  rw [applyBusinessRules_score a]
  have hp : 0 ≤ penaltyTotal a := by
    unfold penaltyTotal
    split <;> split <;> split <;> decide
  constructor
  · exact le_max_left 0 _
  · intro hs
    have : a.score - penaltyTotal a ≤ 100 := by omega
    omega

/-- C6 witness: the amended bounds at a concrete analysis with raw score 80
and all three penalties firing. -/
theorem C6_score_bounds_witness :
    0 ≤ (QuotesService.applyBusinessRules c1Example).score ∧
    (QuotesService.applyBusinessRules c1Example).score ≤ 100 := by
  have h := C6_score_bounds c1Example
  exact ⟨h.1, h.2 (by decide)⟩

/-- C9: adjust modifies only the score and reasoning fields; vendor name,
price, currency, strengths, weaknesses and risks pass through unchanged. -/
theorem C9_adjust_frame (a : QuoteAnalysisDto) :
    (QuotesService.applyBusinessRules a).vendorName = a.vendorName ∧
    (QuotesService.applyBusinessRules a).price = a.price ∧
    (QuotesService.applyBusinessRules a).currency = a.currency ∧
    (QuotesService.applyBusinessRules a).strengths = a.strengths ∧
    (QuotesService.applyBusinessRules a).weaknesses = a.weaknesses ∧
    (QuotesService.applyBusinessRules a).risks = a.risks :=
  applyBusinessRules_frame a

/-- C10: the floor clamp is unconditional; a clean analysis (no penalty
fires) with a negative raw score comes back with score 0, differing from its
input score, while the reasoning stays unchanged. -/
theorem C10_clamp_without_penalty (a : QuoteAnalysisDto)
    (h1 : a.price ≠ none) (h2 : 2 ≤ a.strengths.length)
    (h3 : a.risks.length ≤ 3) (h4 : a.score < 0) :
    (QuotesService.applyBusinessRules a).score = 0 ∧
    (QuotesService.applyBusinessRules a).score ≠ a.score ∧
    (QuotesService.applyBusinessRules a).scoreReasoning = a.scoreReasoning := by
  have hp : penaltyTotal a = 0 := by
    unfold penaltyTotal
    simp [h1]
    omega
  have hs : (QuotesService.applyBusinessRules a).score = 0 := by
    rw [applyBusinessRules_score a, hp]
    omega
  exact ⟨hs, by omega, applyBusinessRules_reasoning_clean a hp⟩

/-- C10 witness: the clamp fires on a concrete penalty-free analysis with
raw score -5. -/
theorem C10_clamp_without_penalty_witness :
    (QuotesService.applyBusinessRules c2Counter).score = 0 ∧
    (QuotesService.applyBusinessRules c2Counter).score ≠ c2Counter.score ∧
    (QuotesService.applyBusinessRules c2Counter).scoreReasoning =
      c2Counter.scoreReasoning :=
  C10_clamp_without_penalty c2Counter (by decide) (by decide) (by decide)
    (by decide)

/-- Comparator of the sort line `result.analyses.sort((a, b) => b.score -
a.score)`: a precedes b exactly when its score is at least as large. -/
def scoreDesc (a b : QuoteAnalysisDto) : Bool := b.score ≤ a.score

/-- Embedding of the descending-score sort applied to the adjusted batch; a
stable sort, matching the ECMAScript guarantee for Array.prototype.sort. -/
def rank (analyses : List QuoteAnalysisDto) : List QuoteAnalysisDto :=
  analyses.mergeSort scoreDesc

/-- C5: rank permutes its input (no analysis added, dropped or modified) and
the output is pairwise descending by score. -/
theorem C5_rank_perm_sorted (l : List QuoteAnalysisDto) :
    List.Perm (rank l) l ∧
    List.Pairwise (fun a b => b.score ≤ a.score) (rank l) := by
  constructor
  · exact List.mergeSort_perm l scoreDesc
  · have htrans : ∀ a b c : QuoteAnalysisDto,
        scoreDesc a b → scoreDesc b c → scoreDesc a c := by
      intro a b c hab hbc
      simp [scoreDesc] at hab hbc ⊢
      omega
    have htotal : ∀ a b : QuoteAnalysisDto, scoreDesc a b || scoreDesc b a := by
      intro a b
      simp [scoreDesc]
      omega
    have h := List.sorted_mergeSort htrans htotal l
    exact h.imp (fun hab => by simpa [scoreDesc] using hab)

/-- Model of the HttpException payloads thrown by the client. -/
structure HttpExceptionModel where
  status : Int
  message : String
  error : String
deriving Repr, DecidableEq

/-- Errors the quotes-service handler can produce: its own validation
BadRequestException, or an HttpException propagated from the AI client. -/
inductive AnalyzeQuotesError where
  | badRequest (message : String)
  | http (e : HttpExceptionModel)
deriving Repr, DecidableEq

/-- Post-processing the handler applies to a successful upstream result:
business rules on each analysis, then the descending-score sort. -/
def postProcess (result : AnalysisResultDto) : AnalysisResultDto :=
  { result with
    analyses := rank (result.analyses.map QuotesService.applyBusinessRules) }

/-- Embedding of `QuotesService.analyzeQuotes`: batch-size validation, then
the AI-service call (modelled as an explicit function argument), then
business rules and sorting. -/
def QuotesService.analyzeQuotes
    (callAI : List CreateQuoteDto → Except HttpExceptionModel AnalysisResultDto)
    (quotes : List CreateQuoteDto) : Except AnalyzeQuotesError AnalysisResultDto :=
  if quotes.length < 2 then
    Except.error (AnalyzeQuotesError.badRequest
      "Veuillez soumettre au moins 2 devis pour une comparaison pertinente")
  else if quotes.length > 10 then
    Except.error (AnalyzeQuotesError.badRequest
      "Maximum 10 devis par analyse pour garantir un temps de réponse acceptable")
  else
    match callAI quotes with
    | Except.error e => Except.error (AnalyzeQuotesError.http e)
    | Except.ok result => Except.ok (postProcess result)

/-- C3: the handler raises its validation BadRequestException exactly when
the batch has fewer than 2 or more than 10 submissions; any batch of 2 to 10
submissions (in particular exactly 2 and exactly 10) passes validation and
the outcome is that of the upstream call. -/
theorem C3_batch_size_validation
    (callAI : List CreateQuoteDto → Except HttpExceptionModel AnalysisResultDto)
    (quotes : List CreateQuoteDto) :
    ((∃ m, QuotesService.analyzeQuotes callAI quotes =
        Except.error (AnalyzeQuotesError.badRequest m)) ↔
      quotes.length < 2 ∨ 10 < quotes.length) ∧
    (2 ≤ quotes.length → quotes.length ≤ 10 →
      QuotesService.analyzeQuotes callAI quotes =
        match callAI quotes with
        | Except.error e => Except.error (AnalyzeQuotesError.http e)
        | Except.ok result => Except.ok (postProcess result)) := by
  constructor
  · constructor
    · intro hm
      by_contra hlen
      push_neg at hlen
      obtain ⟨m, hm⟩ := hm
      unfold QuotesService.analyzeQuotes at hm
      rw [if_neg (by omega), if_neg (by omega)] at hm
      cases h : callAI quotes <;> rw [h] at hm <;> simp at hm
    · intro hlen
      unfold QuotesService.analyzeQuotes
      rcases hlen with hlt | hgt
      · rw [if_pos hlt]
        exact ⟨_, rfl⟩
      · rw [if_neg (by omega), if_pos (by omega)]
        exact ⟨_, rfl⟩
  · intro h2 h10
    unfold QuotesService.analyzeQuotes
    rw [if_neg (by omega), if_neg (by omega)]

/-- C3 witness: a concrete batch of exactly 2 submissions passes validation
and yields the upstream outcome. -/
theorem C3_batch_size_validation_witness :
    QuotesService.analyzeQuotes (fun _ => Except.ok
        { analyses := [], recommendation := "r", analyzedAt := 0 })
      [{ vendorName := "A", content := "c", category := "k" },
       { vendorName := "B", content := "c", category := "k" }] =
      Except.ok (postProcess
        { analyses := [], recommendation := "r", analyzedAt := 0 }) :=
  (C3_batch_size_validation
    (fun _ => Except.ok { analyses := [], recommendation := "r", analyzedAt := 0 })
    [{ vendorName := "A", content := "c", category := "k" },
     { vendorName := "B", content := "c", category := "k" }]).2
    (by decide) (by decide)

/-- Body of an upstream error response as the client reads it:
`response.data?.detail` and `response.data?.message`. -/
structure UpstreamErrorData where
  detail : Option String
  message : Option String
deriving Repr, DecidableEq

/-- Shape of an Axios error as `handleError` inspects it: the transport
error code, the optional upstream response (status and body), and the raw
message. -/
structure AxiosErrorShape where
  code : Option String
  response : Option (Int × UpstreamErrorData)
  message : String
deriving Repr, DecidableEq

/-- Error value caught by the client: either an Axios error or any other
thrown value. -/
inductive CaughtError where
  | axiosErr (e : AxiosErrorShape)
  | generic (message : String)
deriving Repr, DecidableEq

/-- JavaScript `a || b` on an optional string: the fallback is used when the
value is absent or the empty string (falsy). -/
def jsOrString : Option String → String → String
  | some s, fb => if s = "" then fb else s
  | none, fb => fb

/-- Embedding of `AIServiceClient.handleError`: ECONNREFUSED or ENOTFOUND
give 503, ECONNABORTED or ETIMEDOUT give 504, a present upstream response
gives its own status with the upstream detail embedded, and everything else
falls through to a generic 500. -/
def AIServiceClient.handleError : CaughtError → HttpExceptionModel
  | CaughtError.axiosErr e =>
    if e.code = some "ECONNREFUSED" ∨ e.code = some "ENOTFOUND" then
      { status := 503,
        message := "Le service d\x27analyse IA est temporairement indisponible. Veuillez réessayer dans quelques instants.",
        error := "Service Unavailable" }
    else if e.code = some "ECONNABORTED" ∨ e.code = some "ETIMEDOUT" then
      { status := 504,
        message := "L\x27analyse prend trop de temps. Veuillez réduire le nombre de devis ou réessayer.",
        error := "Gateway Timeout" }
    else
      match e.response with
      | some (st, data) =>
        { status := st,
          message := "Erreur lors de l\x27analyse : " ++
            jsOrString data.detail (jsOrString data.message "Erreur inconnue du service IA"),
          error := "AI Service Error" }
      | none =>
        { status := 500,
          message := "Une erreur inattendue est survenue lors de l\x27analyse des devis",
          error := "Internal Server Error" }
  | CaughtError.generic _ =>
    { status := 500,
      message := "Une erreur inattendue est survenue lors de l\x27analyse des devis",
      error := "Internal Server Error" }

/-- C4: handleError maps connection refused or host not found to the 503
unavailable condition; a timeout to the distinct 504 condition; a present
upstream response to an error preserving the upstream status with the
upstream detail (when present and nonempty) embedded in the message; and any
other failure to the generic 500 condition. -/
theorem C4_handleError_taxonomy :
    (∀ e : AxiosErrorShape,
      e.code = some "ECONNREFUSED" ∨ e.code = some "ENOTFOUND" →
        (AIServiceClient.handleError (CaughtError.axiosErr e)).status = 503 ∧
        (AIServiceClient.handleError (CaughtError.axiosErr e)).error =
          "Service Unavailable") ∧
    (∀ e : AxiosErrorShape,
      ¬(e.code = some "ECONNREFUSED" ∨ e.code = some "ENOTFOUND") →
      e.code = some "ECONNABORTED" ∨ e.code = some "ETIMEDOUT" →
        (AIServiceClient.handleError (CaughtError.axiosErr e)).status = 504 ∧
        (AIServiceClient.handleError (CaughtError.axiosErr e)).error =
          "Gateway Timeout") ∧
    (504 : Int) ≠ 503 ∧
    (∀ (e : AxiosErrorShape) (st : Int) (data : UpstreamErrorData),
      e.code ≠ some "ECONNREFUSED" → e.code ≠ some "ENOTFOUND" →
      e.code ≠ some "ECONNABORTED" → e.code ≠ some "ETIMEDOUT" →
      e.response = some (st, data) →
        (AIServiceClient.handleError (CaughtError.axiosErr e)).status = st ∧
        (∀ d, data.detail = some d → d ≠ "" →
          (AIServiceClient.handleError (CaughtError.axiosErr e)).message =
            "Erreur lors de l\x27analyse : " ++ d)) ∧
    (∀ e : AxiosErrorShape,
      e.code ≠ some "ECONNREFUSED" → e.code ≠ some "ENOTFOUND" →
      e.code ≠ some "ECONNABORTED" → e.code ≠ some "ETIMEDOUT" →
      e.response = none →
        (AIServiceClient.handleError (CaughtError.axiosErr e)).status = 500) ∧
    (∀ m, (AIServiceClient.handleError (CaughtError.generic m)).status = 500) := by
  refine ⟨?_, ?_, by decide, ?_, ?_, ?_⟩
  · intro e h
    simp only [AIServiceClient.handleError]
    rw [if_pos h]
    exact ⟨rfl, rfl⟩
  · intro e h1 h2
    simp only [AIServiceClient.handleError]
    rw [if_neg h1, if_pos h2]
    exact ⟨rfl, rfl⟩
  · intro e st data h1 h2 h3 h4 hr
    simp only [AIServiceClient.handleError]
    rw [if_neg (by tauto), if_neg (by tauto), hr]
    refine ⟨rfl, fun d hd hne => ?_⟩
    simp [hd, jsOrString, hne]
  · intro e h1 h2 h3 h4 hr
    simp only [AIServiceClient.handleError]
    rw [if_neg (by tauto), if_neg (by tauto), hr]
  · intro m
    rfl

/-- C4 witness: the four branches evaluated at concrete caught errors. -/
theorem C4_handleError_taxonomy_witness :
    (AIServiceClient.handleError (CaughtError.axiosErr
      { code := some "ECONNREFUSED", response := none, message := "x" })).status = 503 ∧
    (AIServiceClient.handleError (CaughtError.axiosErr
      { code := some "ETIMEDOUT", response := none, message := "x" })).status = 504 ∧
    (AIServiceClient.handleError (CaughtError.axiosErr
      { code := none,
        response := some (422, { detail := some "bad quotes", message := none }),
        message := "x" })).status = 422 ∧
    (AIServiceClient.handleError (CaughtError.axiosErr
      { code := none,
        response := some (422, { detail := some "bad quotes", message := none }),
        message := "x" })).message = "Erreur lors de l\x27analyse : bad quotes" ∧
    (AIServiceClient.handleError (CaughtError.axiosErr
      { code := none, response := none, message := "x" })).status = 500 := by
  have h1 := C4_handleError_taxonomy.1
    { code := some "ECONNREFUSED", response := none, message := "x" }
    (Or.inl rfl)
  have h2 := C4_handleError_taxonomy.2.1
    { code := some "ETIMEDOUT", response := none, message := "x" }
    (by simp) (Or.inr rfl)
  have h3 := C4_handleError_taxonomy.2.2.2.1
    { code := none,
      response := some (422, { detail := some "bad quotes", message := none }),
      message := "x" }
    422 { detail := some "bad quotes", message := none }
    (by simp) (by simp) (by simp) (by simp) rfl
  have h4 := C4_handleError_taxonomy.2.2.2.2.1
    { code := none, response := none, message := "x" }
    (by simp) (by simp) (by simp) (by simp) rfl
  exact ⟨h1.1, h2.1, h3.1, h3.2 "bad quotes" rfl (by decide), h4⟩

/-- Outcome of the health probe the client issues: a response whose body may
or may not carry a status string, a thrown error, or a timeout of the probe
itself. Thrown errors and timeouts are both caught by the try block. -/
inductive HealthProbeOutcome where
  | responds (status : Option String)
  | throwsErr
  | timesOut
deriving Repr, DecidableEq

/-- Embedding of `AIServiceClient.checkHealth`: strict equality of the body
status with the "ok" sentinel on a response, false on any caught failure. -/
def AIServiceClient.checkHealth : HealthProbeOutcome → Bool
  | HealthProbeOutcome.responds status => status == some "ok"
  | HealthProbeOutcome.throwsErr => false
  | HealthProbeOutcome.timesOut => false

/-- C7: checkHealth always yields a plain boolean (it is a total function in
the embedding, so it never raises) and yields true exactly when the probe
responded with a body whose status field is the "ok" sentinel; a throw, a
timeout, or any other body gives false. -/
theorem C7_checkHealth_boolean (o : HealthProbeOutcome) :
    (AIServiceClient.checkHealth o = true ↔
      o = HealthProbeOutcome.responds (some "ok")) ∧
    AIServiceClient.checkHealth HealthProbeOutcome.throwsErr = false ∧
    AIServiceClient.checkHealth HealthProbeOutcome.timesOut = false := by
  refine ⟨?_, rfl, rfl⟩
  cases o with
  | responds status =>
    simp [AIServiceClient.checkHealth]
  | throwsErr => simp [AIServiceClient.checkHealth]
  | timesOut => simp [AIServiceClient.checkHealth]

/-- One analysed quote in the upstream snake_case shape. -/
structure UpstreamQuoteAnalysis where
  vendor_name : String
  price : Option Int
  currency : String
  strengths : List String
  weaknesses : List String
  risks : List String
  score : Int
  score_reasoning : String
deriving Repr, DecidableEq

/-- Successful upstream response body for the analyze call. -/
structure UpstreamAnalyzeResponse where
  analyses : List UpstreamQuoteAnalysis
  recommendation : String
deriving Repr, DecidableEq

/-- Per-analysis deserialization step of `AIServiceClient.analyzeQuotes`:
snake_case upstream fields to the camelCase internal DTO. -/
def deserializeAnalysis (analysis : UpstreamQuoteAnalysis) : QuoteAnalysisDto :=
  { vendorName := analysis.vendor_name,
    price := analysis.price,
    currency := analysis.currency,
    strengths := analysis.strengths,
    weaknesses := analysis.weaknesses,
    risks := analysis.risks,
    score := analysis.score,
    scoreReasoning := analysis.score_reasoning }

/-- Response-deserialization step of `AIServiceClient.analyzeQuotes`: maps
every upstream analysis and stamps the completion time. -/
def AIServiceClient.deserializeResponse (now : Nat)
    (resp : UpstreamAnalyzeResponse) : AnalysisResultDto :=
  { analyses := resp.analyses.map deserializeAnalysis,
    recommendation := resp.recommendation,
    analyzedAt := now }

/-- C8: deserialization keeps one output analysis per upstream analysis and,
position by position, preserves the price exactly (none stays none, some 0
stays some 0) and passes the strengths, weaknesses and risks lists through
verbatim in order. -/
theorem C8_deserialize_preserves (now : Nat) (resp : UpstreamAnalyzeResponse) :
    (AIServiceClient.deserializeResponse now resp).analyses.length =
      resp.analyses.length ∧
    ∀ i : Nat,
      ((AIServiceClient.deserializeResponse now resp).analyses[i]?).map
          QuoteAnalysisDto.price =
        (resp.analyses[i]?).map UpstreamQuoteAnalysis.price ∧
      ((AIServiceClient.deserializeResponse now resp).analyses[i]?).map
          QuoteAnalysisDto.strengths =
        (resp.analyses[i]?).map UpstreamQuoteAnalysis.strengths ∧
      ((AIServiceClient.deserializeResponse now resp).analyses[i]?).map
          QuoteAnalysisDto.weaknesses =
        (resp.analyses[i]?).map UpstreamQuoteAnalysis.weaknesses ∧
      ((AIServiceClient.deserializeResponse now resp).analyses[i]?).map
          QuoteAnalysisDto.risks =
        (resp.analyses[i]?).map UpstreamQuoteAnalysis.risks := by
  refine ⟨by simp [AIServiceClient.deserializeResponse], fun i => ?_⟩
  refine ⟨?_, ?_, ?_, ?_⟩ <;>
    cases hx : resp.analyses[i]? <;>
      simp [AIServiceClient.deserializeResponse, List.getElem?_map, hx,
        deserializeAnalysis]
